import Mathlib

/-!
Shallow embedding of the BaluPi availability core
(`backend/app/services/nas_state_machine.py`,
`backend/app/services/heartbeat_service.py`,
`backend/app/api/routes/handshake.py`) and proofs about it.

Conventions used throughout:
* Timestamps model timezone-aware Python `datetime` values as natural
  numbers (microseconds since the calendar minimum; Python datetimes are
  bounded below, so a natural number suffices).  `datetime.now(...)` becomes
  an explicit `now` argument at each call site that invokes it.
* Byte strings are `List Nat` (one entry per byte).
* Power readings (floats in watts) are rationals.
* Side effects (file writes, DNS calls) are returned explicitly as data so
  that theorems can talk about them.
-/

/-! ### `NasState` and the transition graph (nas_state_machine.py) -/

/-- Embeds the `NasState` enum. -/
inductive NasState where
  | unknown
  | offline
  | booting
  | online
  | shutting_down
deriving DecidableEq, Repr

/-- Embeds `NasState.value`: the string value of each enum member. -/
def NasState.value : NasState → String
  | .unknown => "unknown"
  | .offline => "offline"
  | .booting => "booting"
  | .online => "online"
  | .shutting_down => "shutting_down"

/-- Embeds `VALID_TRANSITIONS`.  Every state is a key of the source dict, so
the embedding is a total function (the `dict.get(..., set())` default is
unreachable). -/
def VALID_TRANSITIONS : NasState → List NasState
  | .unknown => [.online, .offline]
  | .offline => [.booting, .online]
  | .booting => [.online, .offline]
  | .online => [.shutting_down, .offline]
  | .shutting_down => [.offline, .online]

/-- The mutable fields of `NasStateMachine`: `_state` and `_since`. -/
structure NasStateMachine where
  state : NasState
  since : Nat
deriving DecidableEq, Repr

/-! ### JSON values and the persisted record (nas_state_machine.py `_save`/`_load`) -/

/-- Parsed JSON values, the possible results of `json.loads` on the state
file's text. -/
inductive Json where
  | null
  | bool (b : Bool)
  | num (n : Int)
  | str (s : String)
  | arr (elems : List Json)
  | obj (fields : List (String × Json))

/-- Content of the persisted state file, classified by the outcome of
`json.loads` on its text: the file is missing, its text is rejected by
`json.loads` (raising `JSONDecodeError`), or it parses to a JSON value.
`_load` depends on the text only through this outcome. -/
inductive FileContent where
  | missing
  | unparseable
  | parsed (j : Json)

/-- Decimal digit to character (codepoint 48 + d), as in the decimal
rendering used by `datetime.isoformat`. -/
def digitChar (d : Nat) : Char := Char.ofNat (48 + d)

/-- Character back to decimal digit; `none` on a non-digit. -/
def charDigit (c : Char) : Option Nat :=
  if 48 ≤ c.toNat ∧ c.toNat ≤ 57 then some (c.toNat - 48) else none

/-- Characters (most significant first) to little-endian digit list;
`none` if any character is not a digit. -/
def charsToDigits : List Char → Option (List Nat)
  | [] => some []
  | c :: cs =>
    match charDigit c, charsToDigits cs with
    | some d, some ds => some (d :: ds)
    | _, _ => none

/-- Decimal rendering of a natural number, most significant digit first. -/
def natChars (n : Nat) : List Char :=
  if n = 0 then ['0'] else ((Nat.digits 10 n).map digitChar).reverse

/-- Parse a decimal character list back to a natural number; `none` on the
empty list or any non-digit character. -/
def parseNatChars (l : List Char) : Option Nat :=
  if l.isEmpty then none
  else
    match charsToDigits l.reverse with
    | none => none
    | some ds => some (Nat.ofDigits 10 ds)

/-- Models `datetime.isoformat` on our timestamp abstraction: an injective
decimal rendering of the instant. -/
def isoformat (t : Nat) : String := ⟨natChars t⟩

/-- Models `datetime.fromisoformat` on a string: the partial inverse of
`isoformat`; `none` models the `ValueError` raised on malformed input. -/
def fromisoformat (s : String) : Option Nat := parseNatChars s.data

/-- Uncaught Python exceptions relevant to the embedded code. -/
inductive PyErr where
  | typeError
deriving DecidableEq, Repr

/-- Embeds `NasState(value)` on a JSON scalar: a member lookup by value.
Any non-member argument raises `ValueError` (also for unhashable values,
via the enum's linear-search fallback), modelled as `none`. -/
def nasStateOfValue : Json → Option NasState
  | .str s =>
    if s = "unknown" then some .unknown
    else if s = "offline" then some .offline
    else if s = "booting" then some .booting
    else if s = "online" then some .online
    else if s = "shutting_down" then some .shutting_down
    else none
  | _ => none

/-- Embeds Python dict lookup on the fields of a parsed JSON object. -/
def lookupField : List (String × Json) → String → Option Json
  | [], _ => none
  | (k, v) :: rest, key => if k = key then some v else lookupField rest key

/-- Embeds the JSON record written by `NasStateMachine._save`:
`{"state": self._state.value, "since": self._since.isoformat()}`. -/
def NasStateMachine.save (m : NasStateMachine) : Json :=
  .obj [("state", .str m.state.value), ("since", .str (isoformat m.since))]

/-- Embeds `NasStateMachine.__init__` + `_load`: starting from the defaults
`(UNKNOWN, now)`, read the state file.  A missing file keeps the defaults;
`json.JSONDecodeError`, `KeyError` and `ValueError` are caught and reset to
`(UNKNOWN, now)`; but subscripting a non-dict, or calling
`datetime.fromisoformat` on a non-string, raises `TypeError`, which the
`except` clause does not catch. -/
def NasStateMachine.load (file : FileContent) (now : Nat) :
    Except PyErr NasStateMachine :=
  match file with
  | .missing => .ok ⟨.unknown, now⟩
  | .unparseable => .ok ⟨.unknown, now⟩
  | .parsed j =>
    match j with
    | .obj fields =>
      match lookupField fields "state" with
      | none => .ok ⟨.unknown, now⟩
      | some sv =>
        match nasStateOfValue sv with
        | none => .ok ⟨.unknown, now⟩
        | some st =>
          match lookupField fields "since" with
          | none => .ok ⟨.unknown, now⟩
          | some (.str s) =>
            match fromisoformat s with
            | none => .ok ⟨.unknown, now⟩
            | some t => .ok ⟨st, t⟩
          | some _ => .error .typeError
    | _ => .error .typeError

/-- Result of `NasStateMachine.transition`: the returned boolean, the
machine afterwards, and the record written to the persistence store by
`_save` (if any). -/
structure TransitionResult where
  returned : Bool
  machine : NasStateMachine
  saved : Option Json

/-- Embeds `NasStateMachine.transition`.  `now` is the value of
`datetime.now(timezone.utc)` at the call. -/
def NasStateMachine.transition (m : NasStateMachine) (new_state : NasState)
    (now : Nat) : TransitionResult :=
  if new_state = m.state then ⟨true, m, none⟩
  else if new_state ∈ VALID_TRANSITIONS m.state then
    let m' : NasStateMachine := ⟨new_state, now⟩
    ⟨true, m', some m'.save⟩
  else ⟨false, m, none⟩

/-! ### HMAC signature verification (handshake.py `verify_hmac_signature`) -/

/-- Models Python `int(s)` as used on the timestamp header: an optional
sign followed by decimal digits; anything else raises `ValueError`,
modelled as `none`. -/
def pyInt (s : String) : Option Int :=
  match s.data with
  | '-' :: rest => (parseNatChars rest).map fun n => -(n : Int)
  | '+' :: rest => (parseNatChars rest).map fun n => (n : Int)
  | l => (parseNatChars l).map fun n => (n : Int)

/-- An inbound handshake request as `verify_hmac_signature` sees it.
`timestampHeader`/`signatureHeader` are the results of
`request.headers.get(..., "")`, so a missing header is the empty string;
`body` is the raw request body bytes. -/
structure HRequest where
  method : String
  urlPath : String
  timestampHeader : String
  signatureHeader : String
  body : List Nat

/-- Embeds the signed message
`f"{method}:{path}:{timestamp_str}:{body_hash}"` (note that the raw header
string, not the parsed integer, is interpolated).  The SHA-256 hex digest of
the body is supplied as a function parameter, since it is a library
primitive. -/
def signedMessage (sha256hex : List Nat → String) (req : HRequest) : String :=
  req.method ++ ":" ++ req.urlPath ++ ":" ++ req.timestampHeader ++ ":"
    ++ sha256hex req.body

/-- Embeds `verify_hmac_signature`.  The cryptographic primitives
(`hashlib.sha256` hex digest of the body, and `hmac.new(...).hexdigest()`
keyed by the secret) are function parameters; `hmac.compare_digest` returns
the same boolean as string equality.  `now` models `time.time()` at
whole-second granularity.  The result is `.ok ()` for acceptance or
`.error code` for the raised `HTTPException`'s status code. -/
def verify_hmac_signature (sha256hex : List Nat → String)
    (hmacSha256hex : String → String → String)
    (handshake_secret : String) (now : Int) (req : HRequest) :
    Except Nat Unit :=
  if handshake_secret = "" then .error 500
  else if req.timestampHeader = "" ∨ req.signatureHeader = "" then .error 401
  else
    match pyInt req.timestampHeader with
    | none => .error 401
    | some ts =>
      if 60 < (now - ts).natAbs then .error 401
      else if req.signatureHeader
          = hmacSha256hex handshake_secret (signedMessage sha256hex req) then
        .ok ()
      else .error 401

/-! ### Heartbeat dual detection (heartbeat_service.py `_handle_detection`) -/

/-- The settings fields read by `_handle_detection`. -/
structure HbSettings where
  pi_ip : String
  nas_ip : String
  nas_url : String
  nas_power_threshold_watts : ℚ

/-- Embeds `settings.nas_ip or settings.nas_url.split("//")[-1]`. -/
def nasDnsTarget (s : HbSettings) : String :=
  if s.nas_ip ≠ "" then s.nas_ip else (s.nas_url.splitOn "//").getLastD ""

/-- The heartbeat service's mutable fields used by `_handle_detection`:
the state machine plus `_consecutive_failures` and `_fast_poll`. -/
structure HbState where
  machine : NasStateMachine
  consecutive_failures : Nat
  fast_poll : Bool
deriving DecidableEq, Repr

/-- Outcome of one `_handle_detection` call: the updated service state, the
DNS switch calls made (target IPs, in order), and whether the
service-may-have-crashed warning was logged. -/
structure DetectOut where
  hb : HbState
  dnsCalls : List String
  warned : Bool

/-- Embeds `_handle_detection`.  `power` is the watts value returned by
`_get_nas_power()` (`none` when no NAS-role reading is available), `httpOk`
the probe result, and `now` the time of any transition performed. -/
def handle_detection (s : HbSettings) (hb : HbState) (httpOk : Bool)
    (power : Option ℚ) (now : Nat) : DetectOut :=
  let current_state := hb.machine.state
  if httpOk then
    if current_state ≠ NasState.online then
      let r := hb.machine.transition .online now
      { hb := ⟨r.machine, 0, false⟩
        dnsCalls := [nasDnsTarget s]
        warned := false }
    else
      { hb := ⟨hb.machine, 0, hb.fast_poll⟩, dnsCalls := [], warned := false }
  else
    let failures := hb.consecutive_failures + 1
    let hb1 : HbState := ⟨hb.machine, failures, hb.fast_poll⟩
    if failures < 3 then
      { hb := hb1, dnsCalls := [], warned := false }
    else
      match power with
      | some p =>
        if p < 2 then
          if current_state ≠ NasState.offline then
            let r := hb.machine.transition .offline now
            { hb := ⟨r.machine, failures, false⟩
              dnsCalls := [s.pi_ip]
              warned := false }
          else
            { hb := hb1, dnsCalls := [], warned := false }
        else if p < 15 then
          if current_state ≠ NasState.offline then
            let r := hb.machine.transition .offline now
            { hb := ⟨r.machine, failures, hb.fast_poll⟩
              dnsCalls := [s.pi_ip]
              warned := false }
          else
            { hb := hb1, dnsCalls := [], warned := false }
        else if p > s.nas_power_threshold_watts then
          { hb := hb1, dnsCalls := [], warned := true }
        else
          { hb := hb1, dnsCalls := [], warned := false }
      | none =>
        if current_state ≠ NasState.offline
            ∧ current_state ≠ NasState.shutting_down then
          let r := hb.machine.transition .offline now
          { hb := ⟨r.machine, failures, false⟩
            dnsCalls := [s.pi_ip]
            warned := false }
        else
          { hb := hb1, dnsCalls := [], warned := false }

/-! ### `nas_going_offline` route (handshake.py) -/

/-- Outcome of the `nas_going_offline` handler: final machine, snapshot file
content, transitions attempted (targets, in order), DNS calls made, and the
response fields. -/
structure GoingOfflineResult where
  machine : NasStateMachine
  snapshotFile : List Nat
  transitionsAttempted : List NasState
  dnsCalls : List String
  acknowledged : Bool
  dns_switched : Bool

/-- Embeds `nas_going_offline` (post-authentication).  `prevSnapshot` is the
prior snapshot file content (overwritten by `write_bytes`); `dnsResult` is
the boolean returned by `dns.switch_baluhost_dns(settings.pi_ip)`, which
catches all exceptions internally and never raises; `now1`/`now2` time the
two transitions. -/
def nas_going_offline (pi_ip : String) (m : NasStateMachine)
    (prevSnapshot : Option (List Nat)) (body : List Nat) (dnsResult : Bool)
    (now1 now2 : Nat) : GoingOfflineResult :=
  let r1 := m.transition .shutting_down now1
  let r2 := r1.machine.transition .offline now2
  { machine := r2.machine
    snapshotFile := body
    transitionsAttempted := [.shutting_down, .offline]
    dnsCalls := [pi_ip]
    acknowledged := true
    dns_switched := dnsResult }

/-! ### Inbox flush (handshake.py `_flush_inbox`) -/

/-- Outcome of invoking rsync: the subprocess could not be started (or any
other exception was raised, both caught and yielding 0), or it ran with a
return code and decoded stdout lines (as split by `str.splitlines`). -/
inductive RsyncOutcome where
  | error
  | ran (returncode : Int) (stdoutLines : List String)

/-- Models Python `str.startswith` with a single prefix argument: the
prefix's characters lead the line's characters. -/
def pyStartsWith (line p : String) : Bool := p.data.isPrefixOf line.data

/-- The per-line filter of `_flush_inbox`: a line counts as a transferred
file when it is non-blank after stripping (`line.strip()` is truthy exactly
when some character is not whitespace), does not start with one of the
structural prefixes, and does not end in a slash (`line.endswith("/")`
holds exactly when the last character is a slash). -/
def countsAsTransferred (line : String) : Bool :=
  line.data.any (fun c => !c.isWhitespace)
    && !(pyStartsWith line "sending" || pyStartsWith line "sent"
      || pyStartsWith line "total" || pyStartsWith line "building"
      || pyStartsWith line "created")
    && !(line.data.getLast? == some '/')

/-- Result of `_flush_inbox`: the returned count and whether the transfer
subprocess was invoked at all (the early returns make no call and have no
side effect). -/
structure FlushResult where
  transferred : Nat
  invokedTransfer : Bool
deriving DecidableEq, Repr

/-- Embeds `_flush_inbox`.  `inboxEntries` are the directory entries of the
inbox (`any(INBOX_DIR.iterdir())` is emptiness of this list); `rsync` is the
outcome of the subprocess when one is started. -/
def flush_inbox (is_dev_mode : Bool) (inboxExists : Bool)
    (inboxEntries : List String) (rsync : RsyncOutcome) : FlushResult :=
  if is_dev_mode then ⟨0, false⟩
  else if !inboxExists || inboxEntries.isEmpty then ⟨0, false⟩
  else
    match rsync with
    | .error => ⟨0, true⟩
    | .ran rc lines =>
      if rc ≠ 0 then ⟨0, true⟩
      else ⟨(lines.filter countsAsTransferred).length, true⟩

/-! ### Helper lemmas: the decimal timestamp codec round-trips -/

theorem charDigit_digitChar {d : Nat} (h : d < 10) :
    charDigit (digitChar d) = some d := by
  interval_cases d <;> rfl

theorem charsToDigits_map_digitChar (l : List Nat) (h : ∀ d ∈ l, d < 10) :
    charsToDigits (l.map digitChar) = some l := by
  induction l with
  | nil => rfl
  | cons d ds ih =>
    have hd : d < 10 := h d (List.mem_cons_self d ds)
    have hds := ih fun x hx => h x (List.mem_cons_of_mem d hx)
    simp [charsToDigits, charDigit_digitChar hd, hds]

theorem parseNatChars_natChars (n : Nat) : parseNatChars (natChars n) = some n := by
  rcases eq_or_ne n 0 with h | h
  · subst h; rfl
  · have hne : Nat.digits 10 n ≠ [] := Nat.digits_ne_nil_iff_ne_zero.mpr h
    have hlt : ∀ d ∈ Nat.digits 10 n, d < 10 :=
      fun d hd => Nat.digits_lt_base (by norm_num) hd
    have hem : (((Nat.digits 10 n).map digitChar).reverse).isEmpty = false := by
      rcases hd : Nat.digits 10 n with _ | ⟨a, as⟩
      · exact absurd hd hne
      · simp
    simp only [natChars, if_neg h, parseNatChars, hem, Bool.false_eq_true,
      if_false, List.reverse_reverse, charsToDigits_map_digitChar _ hlt,
      Nat.ofDigits_digits]

theorem fromisoformat_isoformat (t : Nat) : fromisoformat (isoformat t) = some t :=
  parseNatChars_natChars t

/-! ### Helper lemmas: characterizing `verify_hmac_signature` -/

theorem verify_ok_iff (sha256hex : List Nat → String)
    (hmacSha256hex : String → String → String) (secret : String) (now : Int)
    (req : HRequest) :
    verify_hmac_signature sha256hex hmacSha256hex secret now req = .ok ()
      ↔ secret ≠ "" ∧ req.timestampHeader ≠ "" ∧ req.signatureHeader ≠ ""
        ∧ (∃ ts, pyInt req.timestampHeader = some ts ∧ (now - ts).natAbs ≤ 60)
        ∧ req.signatureHeader
            = hmacSha256hex secret (signedMessage sha256hex req) := by
  unfold verify_hmac_signature
  by_cases hs : secret = ""
  · simp [hs]
  · rw [if_neg hs]
    by_cases hhd : req.timestampHeader = "" ∨ req.signatureHeader = ""
    · rw [if_pos hhd]
      constructor
      · intro h; exact absurd h (by simp)
      · rintro ⟨-, ht, hsg, -⟩
        rcases hhd with h | h
        · exact absurd h ht
        · exact absurd h hsg
    · rw [if_neg hhd]
      push_neg at hhd
      obtain ⟨ht, hsg⟩ := hhd
      rcases hp : pyInt req.timestampHeader with - | ts
      · simp [hp, hs, ht, hsg]
      · simp only [hp]
        by_cases hage : 60 < (now - ts).natAbs
        · rw [if_pos hage]
          simp only [hs, ht, hsg, ne_eq, not_false_iff, true_and,
            Option.some.injEq]
          constructor
          · intro h; exact absurd h (by simp)
          · rintro ⟨⟨ts', hts', hle⟩, -⟩
            cases hts'
            omega
        · rw [if_neg hage]
          by_cases hmq : req.signatureHeader
              = hmacSha256hex secret (signedMessage sha256hex req)
          · rw [if_pos hmq]
            exact iff_of_true rfl ⟨hs, ht, hsg, ⟨ts, rfl, by omega⟩, hmq⟩
          · rw [if_neg hmq]
            simp [hmq]

theorem verify_not_ok_401 (sha256hex : List Nat → String)
    (hmacSha256hex : String → String → String) (secret : String) (now : Int)
    (req : HRequest) (hs : secret ≠ "")
    (h : verify_hmac_signature sha256hex hmacSha256hex secret now req ≠ .ok ()) :
    verify_hmac_signature sha256hex hmacSha256hex secret now req = .error 401 := by
  unfold verify_hmac_signature at h ⊢
  rw [if_neg hs] at h ⊢
  by_cases hhd : req.timestampHeader = "" ∨ req.signatureHeader = ""
  · rw [if_pos hhd]
  · rw [if_neg hhd] at h ⊢
    rcases hp : pyInt req.timestampHeader with - | ts
    · simp [hp]
    · simp only [hp] at h ⊢
      by_cases hage : 60 < (now - ts).natAbs
      · rw [if_pos hage]
      · rw [if_neg hage] at h ⊢
        by_cases hmq : req.signatureHeader
            = hmacSha256hex secret (signedMessage sha256hex req)
        · rw [if_pos hmq] at h
          exact absurd rfl h
        · rw [if_neg hmq]

/-! ### Claim theorems -/

/-- C1: for every pair `(current, target)` with `target ≠ current` and
`target` not in the allowed transition graph for `current`,
`NasStateMachine.transition target` returns `false`, leaves the stored state
and the since-timestamp unchanged, and writes nothing to the persistence
store. -/
theorem c1_rejected_transition_unchanged (m : NasStateMachine)
    (target : NasState) (now : Nat) (hne : target ≠ m.state)
    (hinv : target ∉ VALID_TRANSITIONS m.state) :
    m.transition target now = ⟨false, m, none⟩ := by
  unfold NasStateMachine.transition
  rw [if_neg hne, if_neg hinv]

/-- Witness for C1 at the concrete rejected edge `ONLINE → BOOTING`. -/
theorem c1_rejected_transition_unchanged_witness :
    NasStateMachine.transition ⟨.online, 4⟩ .booting 9
      = ⟨false, ⟨.online, 4⟩, none⟩ :=
  c1_rejected_transition_unchanged ⟨.online, 4⟩ .booting 9 (by decide) (by decide)

/-- C7: for every edge `(current, target)` in the allowed transition graph
with `target ≠ current`, `transition target` returns `true`, sets the state
to `target`, advances the since-timestamp to `now` (a value `≥` the previous
one, as the clock does not run backwards), and writes the new
`(state, since)` record to the persistence store. -/
theorem c7_valid_transition_commits (m : NasStateMachine) (target : NasState)
    (now : Nat) (hne : target ≠ m.state) (hv : target ∈ VALID_TRANSITIONS m.state)
    (hle : m.since ≤ now) :
    m.transition target now
        = ⟨true, ⟨target, now⟩, some (NasStateMachine.save ⟨target, now⟩)⟩
      ∧ m.since ≤ (m.transition target now).machine.since := by
  have h : m.transition target now
      = ⟨true, ⟨target, now⟩, some (NasStateMachine.save ⟨target, now⟩)⟩ := by
    unfold NasStateMachine.transition
    rw [if_neg hne, if_pos hv]
  exact ⟨h, by rw [h]; exact hle⟩

/-- Witness for C7 at the concrete valid edge `ONLINE → SHUTTING_DOWN`. -/
theorem c7_valid_transition_commits_witness :
    NasStateMachine.transition ⟨.online, 3⟩ .shutting_down 8
        = ⟨true, ⟨.shutting_down, 8⟩, some (NasStateMachine.save ⟨.shutting_down, 8⟩)⟩
      ∧ (3 : Nat) ≤ (NasStateMachine.transition ⟨.online, 3⟩ .shutting_down 8).machine.since :=
  c7_valid_transition_commits ⟨.online, 3⟩ .shutting_down 8
    (by decide) (by decide) (by decide)

/-- C8: persisting any `(state, since)` pair via the state machine's save
and then constructing a new machine over the same store content yields an
identical pair — save followed by load is the identity. -/
theorem c8_save_load_roundtrip (m : NasStateMachine) (now : Nat) :
    NasStateMachine.load (.parsed m.save) now = .ok m := by
  obtain ⟨st, t⟩ := m
  have hiso := fromisoformat_isoformat t
  cases st <;>
    simp [NasStateMachine.load, NasStateMachine.save, NasState.value,
      lookupField, nasStateOfValue, hiso]

/-- C6 evaluation: the state-file content
`\x7b"state": "online", "since": 123\x7d` parses as JSON but holds a
non-string `since`, so `datetime.fromisoformat` raises an uncaught
`TypeError` and construction faults instead of degrading to `UNKNOWN`. -/
theorem c6_corrupt_since_raises :
    NasStateMachine.load
        (.parsed (.obj [("state", Json.str "online"), ("since", Json.num 123)])) 0
      = .error .typeError := rfl

/-- C3: in the heartbeat detection step with no power reading: a probe
failure that leaves the consecutive-failure count below 3 changes neither
the state machine nor DNS; exactly the 3rd consecutive failure, from
`ONLINE`, transitions to `OFFLINE` and switches DNS to the companion's own
IP; and a successful probe always resets the failure counter to 0. -/
theorem c3_heartbeat_threshold (s : HbSettings) (hb : HbState) (now : Nat) :
    (hb.consecutive_failures + 1 < 3 →
      (handle_detection s hb false none now).hb.machine = hb.machine
        ∧ (handle_detection s hb false none now).dnsCalls = [])
    ∧ (hb.consecutive_failures + 1 = 3 → hb.machine.state = .online →
      (handle_detection s hb false none now).hb.machine.state = .offline
        ∧ (handle_detection s hb false none now).dnsCalls = [s.pi_ip])
    ∧ (∀ power : Option ℚ,
      (handle_detection s hb true power now).hb.consecutive_failures = 0) := by
  obtain ⟨⟨st, t⟩, cf, fp⟩ := hb
  refine ⟨fun h => ?_, fun h3 honline => ?_, fun power => ?_⟩
  · simp only [handle_detection, Bool.false_eq_true, if_false]
    rw [if_pos h]
    exact ⟨rfl, rfl⟩
  · have hst : st = NasState.online := honline
    subst hst
    simp [handle_detection, h3, NasStateMachine.transition, VALID_TRANSITIONS]
  · by_cases h : st = NasState.online <;>
      simp [handle_detection, h]

/-- Witness for C3: the three parts at concrete inputs — a 1st failure from
`ONLINE` changes nothing; a 3rd failure from `ONLINE` goes `OFFLINE` and
calls DNS on the companion IP; a success after 2 failures resets to 0. -/
theorem c3_heartbeat_threshold_witness :
    ((handle_detection ⟨"10.0.0.2", "10.0.0.9", "u", 30⟩ ⟨⟨.online, 0⟩, 0, false⟩
        false none 7).hb.machine = ⟨.online, 0⟩
      ∧ (handle_detection ⟨"10.0.0.2", "10.0.0.9", "u", 30⟩ ⟨⟨.online, 0⟩, 0, false⟩
        false none 7).dnsCalls = [])
    ∧ ((handle_detection ⟨"10.0.0.2", "10.0.0.9", "u", 30⟩ ⟨⟨.online, 0⟩, 2, false⟩
        false none 7).hb.machine.state = .offline
      ∧ (handle_detection ⟨"10.0.0.2", "10.0.0.9", "u", 30⟩ ⟨⟨.online, 0⟩, 2, false⟩
        false none 7).dnsCalls = ["10.0.0.2"])
    ∧ (handle_detection ⟨"10.0.0.2", "10.0.0.9", "u", 30⟩ ⟨⟨.online, 0⟩, 2, false⟩
        true none 7).hb.consecutive_failures = 0 :=
  ⟨(c3_heartbeat_threshold ⟨"10.0.0.2", "10.0.0.9", "u", 30⟩
      ⟨⟨.online, 0⟩, 0, false⟩ 7).1 (by decide),
   (c3_heartbeat_threshold ⟨"10.0.0.2", "10.0.0.9", "u", 30⟩
      ⟨⟨.online, 0⟩, 2, false⟩ 7).2.1 (by decide) (by decide),
   (c3_heartbeat_threshold ⟨"10.0.0.2", "10.0.0.9", "u", 30⟩
      ⟨⟨.online, 0⟩, 2, false⟩ 7).2.2 none⟩

/-- C4 counterexample.  First input: the machine is already `OFFLINE` with
fast poll armed, threshold reached, power 1 W (< 2 W) — the code leaves
fast poll armed and makes no DNS call, while the claim says fast-poll is
exited and DNS is switched.  Second input: threshold configured to 10 W,
power 12 W (above the threshold), machine `ONLINE` — the code takes the
standby branch (power < 15 W), transitions to `OFFLINE` and calls DNS,
while the claim says the state machine is not changed and no DNS call is
made. -/
theorem c4_power_tiebreak_counterexample :
    ((handle_detection ⟨"2.2.2.2", "3.3.3.3", "u", 30⟩ ⟨⟨.offline, 0⟩, 2, true⟩
        false (some 1) 5).hb.fast_poll = true
      ∧ (handle_detection ⟨"2.2.2.2", "3.3.3.3", "u", 30⟩ ⟨⟨.offline, 0⟩, 2, true⟩
        false (some 1) 5).dnsCalls = [])
    ∧ ((handle_detection ⟨"2.2.2.2", "3.3.3.3", "u", 10⟩ ⟨⟨.online, 0⟩, 2, false⟩
        false (some 12) 5).hb.machine.state = .offline
      ∧ (handle_detection ⟨"2.2.2.2", "3.3.3.3", "u", 10⟩ ⟨⟨.online, 0⟩, 2, false⟩
        false (some 12) 5).dnsCalls = ["2.2.2.2"]) := by
  refine ⟨⟨?_, ?_⟩, ?_, ?_⟩ <;> rfl

/-- C4 (amended): with the failure threshold reached and a power reading
present — if power < 2 W and the machine is not already `OFFLINE`, it
transitions to `OFFLINE`, DNS is switched to the companion's own IP and
fast-poll is exited; if power < 2 W and the machine is already `OFFLINE`,
nothing changes and no DNS call is made; if power is at least 15 W and above
the configured expected-active threshold, the state machine is unchanged,
no DNS call is made, and only a warning is logged. -/
theorem c4_power_tiebreak_amended (s : HbSettings) (hb : HbState) (p : ℚ)
    (now : Nat) (hth : 3 ≤ hb.consecutive_failures + 1) :
    (p < 2 → hb.machine.state ≠ .offline →
      (handle_detection s hb false (some p) now).hb.machine.state = .offline
        ∧ (handle_detection s hb false (some p) now).dnsCalls = [s.pi_ip]
        ∧ (handle_detection s hb false (some p) now).hb.fast_poll = false)
    ∧ (p < 2 → hb.machine.state = .offline →
      (handle_detection s hb false (some p) now).hb
          = ⟨hb.machine, hb.consecutive_failures + 1, hb.fast_poll⟩
        ∧ (handle_detection s hb false (some p) now).dnsCalls = [])
    ∧ (15 ≤ p → s.nas_power_threshold_watts < p →
      (handle_detection s hb false (some p) now).hb
          = ⟨hb.machine, hb.consecutive_failures + 1, hb.fast_poll⟩
        ∧ (handle_detection s hb false (some p) now).dnsCalls = []
        ∧ (handle_detection s hb false (some p) now).warned = true) := by
  obtain ⟨⟨st, t⟩, cf, fp⟩ := hb
  have hth' : 3 ≤ cf + 1 := hth
  have hnlt : ¬ (cf + 1 < 3) := by omega
  refine ⟨fun hp hoff => ?_, fun hp hoff => ?_, fun h15 hgt => ?_⟩
  · have hstne : st ≠ NasState.offline := hoff
    cases st <;> first
      | exact absurd rfl hstne
      | simp [handle_detection, hnlt, hp, NasStateMachine.transition,
          VALID_TRANSITIONS]
  · have hst : st = NasState.offline := hoff
    subst hst
    simp [handle_detection, hnlt, hp]
  · have hp2 : ¬ p < 2 := by linarith
    have hp15 : ¬ p < 15 := by linarith
    simp [handle_detection, hnlt, hp2, hp15, hgt]

/-- Witness for C4 (amended): the three branches at concrete inputs with
power 1 W from `ONLINE`, power 1 W while already `OFFLINE`, and power 40 W
against a 30 W threshold. -/
theorem c4_power_tiebreak_amended_witness :
    ((handle_detection ⟨"9.9.9.9", "8.8.8.8", "u", 30⟩ ⟨⟨.online, 0⟩, 4, true⟩
        false (some 1) 6).hb.machine.state = .offline
      ∧ (handle_detection ⟨"9.9.9.9", "8.8.8.8", "u", 30⟩ ⟨⟨.online, 0⟩, 4, true⟩
        false (some 1) 6).dnsCalls = ["9.9.9.9"]
      ∧ (handle_detection ⟨"9.9.9.9", "8.8.8.8", "u", 30⟩ ⟨⟨.online, 0⟩, 4, true⟩
        false (some 1) 6).hb.fast_poll = false)
    ∧ ((handle_detection ⟨"9.9.9.9", "8.8.8.8", "u", 30⟩ ⟨⟨.offline, 2⟩, 4, true⟩
        false (some 1) 6).hb = ⟨⟨.offline, 2⟩, 5, true⟩
      ∧ (handle_detection ⟨"9.9.9.9", "8.8.8.8", "u", 30⟩ ⟨⟨.offline, 2⟩, 4, true⟩
        false (some 1) 6).dnsCalls = [])
    ∧ ((handle_detection ⟨"9.9.9.9", "8.8.8.8", "u", 30⟩ ⟨⟨.online, 0⟩, 4, false⟩
        false (some 40) 6).hb = ⟨⟨.online, 0⟩, 5, false⟩
      ∧ (handle_detection ⟨"9.9.9.9", "8.8.8.8", "u", 30⟩ ⟨⟨.online, 0⟩, 4, false⟩
        false (some 40) 6).dnsCalls = []
      ∧ (handle_detection ⟨"9.9.9.9", "8.8.8.8", "u", 30⟩ ⟨⟨.online, 0⟩, 4, false⟩
        false (some 40) 6).warned = true) :=
  ⟨(c4_power_tiebreak_amended ⟨"9.9.9.9", "8.8.8.8", "u", 30⟩
      ⟨⟨.online, 0⟩, 4, true⟩ 1 6 (by decide)).1 (by norm_num) (by decide),
   (c4_power_tiebreak_amended ⟨"9.9.9.9", "8.8.8.8", "u", 30⟩
      ⟨⟨.offline, 2⟩, 4, true⟩ 1 6 (by decide)).2.1 (by norm_num) (by decide),
   (c4_power_tiebreak_amended ⟨"9.9.9.9", "8.8.8.8", "u", 30⟩
      ⟨⟨.online, 0⟩, 4, false⟩ 40 6 (by decide)).2.2 (by norm_num) (by norm_num)⟩

/-- C5: for every authenticated host-going-offline request while `ONLINE`:
the snapshot file afterwards holds exactly the raw body bytes (whatever the
previous snapshot was), both the `SHUTTING_DOWN` and `OFFLINE` transitions
are attempted regardless of the DNS outcome, the final state is `OFFLINE`,
and the response reports the DNS result. -/
theorem c5_going_offline (pi_ip : String) (m : NasStateMachine)
    (prevSnapshot : Option (List Nat)) (body : List Nat) (dnsResult : Bool)
    (now1 now2 : Nat) (honline : m.state = .online) :
    (nas_going_offline pi_ip m prevSnapshot body dnsResult now1 now2).snapshotFile = body
    ∧ (nas_going_offline pi_ip m prevSnapshot body dnsResult now1 now2).machine.state = .offline
    ∧ (nas_going_offline pi_ip m prevSnapshot body dnsResult now1 now2).transitionsAttempted
        = [.shutting_down, .offline]
    ∧ (nas_going_offline pi_ip m prevSnapshot body dnsResult now1 now2).dnsCalls = [pi_ip]
    ∧ (nas_going_offline pi_ip m prevSnapshot body dnsResult now1 now2).dns_switched = dnsResult
    ∧ (nas_going_offline pi_ip m prevSnapshot body dnsResult now1 now2).acknowledged = true := by
  obtain ⟨st, t⟩ := m
  have hst : st = NasState.online := honline
  subst hst
  simp [nas_going_offline, NasStateMachine.transition, VALID_TRANSITIONS]

/-- Witness for C5: a concrete going-offline request from `ONLINE` with a
failing DNS switch still ends `OFFLINE` with the body persisted. -/
theorem c5_going_offline_witness :
    (nas_going_offline "10.0.0.2" ⟨.online, 1⟩ (some [1, 2]) [7, 8, 9] false 4 5).snapshotFile
        = [7, 8, 9]
    ∧ (nas_going_offline "10.0.0.2" ⟨.online, 1⟩ (some [1, 2]) [7, 8, 9] false 4 5).machine.state
        = .offline
    ∧ (nas_going_offline "10.0.0.2" ⟨.online, 1⟩ (some [1, 2]) [7, 8, 9] false 4 5).transitionsAttempted
        = [.shutting_down, .offline]
    ∧ (nas_going_offline "10.0.0.2" ⟨.online, 1⟩ (some [1, 2]) [7, 8, 9] false 4 5).dnsCalls
        = ["10.0.0.2"]
    ∧ (nas_going_offline "10.0.0.2" ⟨.online, 1⟩ (some [1, 2]) [7, 8, 9] false 4 5).dns_switched
        = false
    ∧ (nas_going_offline "10.0.0.2" ⟨.online, 1⟩ (some [1, 2]) [7, 8, 9] false 4 5).acknowledged
        = true :=
  c5_going_offline "10.0.0.2" ⟨.online, 1⟩ (some [1, 2]) [7, 8, 9] false 4 5 (by decide)

/-- C2: the handshake signature check accepts exactly when a secret is
configured, both headers are present, the timestamp parses and is within 60
seconds of now, and the provided signature equals the keyed digest of
`method:path:timestamp:bodyhash` (string equality, which is what the
constant-time comparison decides); an absent secret yields 500 regardless of
headers, and with a secret configured every non-accepted request yields 401.
The digest primitives are arbitrary parameters, so single-field mutations
cause 401 exactly when they change the digest. -/
theorem c2_signature_check (sha256hex : List Nat → String)
    (hmacSha256hex : String → String → String) (secret : String) (now : Int)
    (req : HRequest) :
    (verify_hmac_signature sha256hex hmacSha256hex secret now req = .ok ()
      ↔ secret ≠ "" ∧ req.timestampHeader ≠ "" ∧ req.signatureHeader ≠ ""
        ∧ (∃ ts, pyInt req.timestampHeader = some ts ∧ (now - ts).natAbs ≤ 60)
        ∧ req.signatureHeader
            = hmacSha256hex secret (signedMessage sha256hex req))
    ∧ (secret = "" →
        verify_hmac_signature sha256hex hmacSha256hex secret now req = .error 500)
    ∧ (secret ≠ "" →
        verify_hmac_signature sha256hex hmacSha256hex secret now req ≠ .ok () →
        verify_hmac_signature sha256hex hmacSha256hex secret now req = .error 401) :=
  ⟨verify_ok_iff sha256hex hmacSha256hex secret now req,
   fun hs => by unfold verify_hmac_signature; rw [if_pos hs],
   verify_not_ok_401 sha256hex hmacSha256hex secret now req⟩

/-- Witness for C2: a correctly signed concrete request is accepted. -/
theorem c2_signature_check_witness :
    verify_hmac_signature (fun _ => "B") (fun k m => k ++ ":" ++ m) "s" 0
        ⟨"POST", "/p", "0", "s:POST:/p:0:B", []⟩ = .ok () :=
  (c2_signature_check (fun _ => "B") (fun k m => k ++ ":" ++ m) "s" 0
      ⟨"POST", "/p", "0", "s:POST:/p:0:B", []⟩).1.mpr
    ⟨by decide, by decide, by decide, ⟨0, by decide, by decide⟩, by decide⟩

/-- C10 counterexample: with no secret configured, a request whose
timestamp header is present but unparseable is rejected with 500, not the
401 the claim states. -/
theorem c10_unparseable_counterexample :
    pyInt "abc" = none
    ∧ verify_hmac_signature (fun _ => "B") (fun _ m => m) "" 0
        ⟨"POST", "/p", "abc", "x", []⟩ = .error 500 := ⟨rfl, rfl⟩

/-- C10 (amended): provided a shared secret is configured, every request
whose timestamp header is present but does not parse as an integer is
rejected with HTTP 401 — for arbitrary digest functions, so the outcome is
independent of any signature computation. -/
theorem c10_unparseable_timestamp_401 (sha256hex : List Nat → String)
    (hmacSha256hex : String → String → String) (secret : String) (now : Int)
    (req : HRequest) (hs : secret ≠ "") (ht : req.timestampHeader ≠ "")
    (hp : pyInt req.timestampHeader = none) :
    verify_hmac_signature sha256hex hmacSha256hex secret now req = .error 401 := by
  unfold verify_hmac_signature
  rw [if_neg hs]
  by_cases hsg : req.signatureHeader = ""
  · rw [if_pos (Or.inr hsg)]
  · rw [if_neg (by rintro (h | h); exacts [ht h, hsg h])]
    simp [hp]

/-- Witness for C10 (amended) at a concrete unparseable timestamp. -/
theorem c10_unparseable_timestamp_401_witness :
    verify_hmac_signature (fun _ => "B") (fun _ m => m) "s" 0
        ⟨"POST", "/p", "abc", "x", []⟩ = .error 401 :=
  c10_unparseable_timestamp_401 (fun _ => "B") (fun _ m => m) "s" 0
    ⟨"POST", "/p", "abc", "x", []⟩ (by decide) (by decide) (by decide)

/-- C9 counterexample: with dev mode off and a non-empty inbox, rsync exits
with code 1 while its stdout still shows one per-file line — the code
returns 0, not the per-file line count the claim states for every
non-dev, non-empty case. -/
theorem c9_flush_counterexample :
    (flush_inbox false true ["f.txt"] (.ran 1 ["a.txt"])).transferred = 0
    ∧ (["a.txt"].filter countsAsTransferred).length = 1 := by
  exact ⟨rfl, by decide⟩

/-- C9 (amended): the inbox flush returns 0 without invoking the transfer
whenever dev mode is active or the inbox is absent or empty; otherwise the
transfer is invoked and — when the tool runs and exits 0 — the returned
count equals the number of output lines that are non-blank, do not start
with `sending`/`sent`/`total`/`building`/`created`, and do not end in a
slash; if the tool cannot be started or exits nonzero, 0 is returned. -/
theorem c9_flush_count (is_dev_mode inboxExists : Bool)
    (inboxEntries : List String) (rsync : RsyncOutcome) :
    (is_dev_mode = true →
      flush_inbox is_dev_mode inboxExists inboxEntries rsync = ⟨0, false⟩)
    ∧ (inboxExists = false ∨ inboxEntries = [] →
      flush_inbox is_dev_mode inboxExists inboxEntries rsync = ⟨0, false⟩)
    ∧ (is_dev_mode = false → inboxExists = true → inboxEntries ≠ [] →
      (∀ lines, flush_inbox is_dev_mode inboxExists inboxEntries (.ran 0 lines)
          = ⟨(lines.filter countsAsTransferred).length, true⟩)
      ∧ (∀ rc lines, rc ≠ 0 →
          flush_inbox is_dev_mode inboxExists inboxEntries (.ran rc lines)
            = ⟨0, true⟩)
      ∧ flush_inbox is_dev_mode inboxExists inboxEntries .error = ⟨0, true⟩) := by
  have hne : ∀ (l : List String), l ≠ [] → l.isEmpty = false := by
    intro l hl
    cases l with
    | nil => exact absurd rfl hl
    | cons a as => rfl
  refine ⟨fun hd => ?_, fun he => ?_,
    fun hd hx hnil => ⟨fun lines => ?_, fun rc lines hrc => ?_, ?_⟩⟩
  · simp [flush_inbox, hd]
  · rcases he with he | he
    · subst he
      cases is_dev_mode <;> simp [flush_inbox]
    · subst he
      cases is_dev_mode <;> cases inboxExists <;> simp [flush_inbox]
  · subst hd hx
    simp [flush_inbox, hne _ hnil]
  · subst hd hx
    simp [flush_inbox, hne _ hnil, hrc]
  · subst hd hx
    simp [flush_inbox, hne _ hnil]

/-- Witness for C9 (amended): the branches at concrete inputs, including an
rsync transcript whose only counted line is the one transferred file. -/
theorem c9_flush_count_witness :
    flush_inbox true true ["x"] (.ran 0 ["y"]) = ⟨0, false⟩
    ∧ flush_inbox false true [] (.ran 0 ["y"]) = ⟨0, false⟩
    ∧ flush_inbox false true ["x"]
        (.ran 0 ["sending incremental file list", "a.txt", "dir/", "",
          "sent 100 bytes"]) = ⟨1, true⟩
    ∧ flush_inbox false true ["x"] (.ran 23 ["a.txt"]) = ⟨0, true⟩
    ∧ flush_inbox false true ["x"] .error = ⟨0, true⟩ :=
  ⟨(c9_flush_count true true ["x"] (.ran 0 ["y"])).1 rfl,
   (c9_flush_count false true [] (.ran 0 ["y"])).2.1 (Or.inr rfl),
   (((c9_flush_count false true ["x"] .error).2.2 rfl rfl (by decide)).1
     ["sending incremental file list", "a.txt", "dir/", "", "sent 100 bytes"]).trans
     (by decide),
   ((c9_flush_count false true ["x"] .error).2.2 rfl rfl (by decide)).2.1
     23 ["a.txt"] (by decide),
   ((c9_flush_count false true ["x"] .error).2.2 rfl rfl (by decide)).2.2⟩
